import Mathlib

/-!
WebSSH bridge: the handler `ws.SSHHandle`

A shallow embedding of `src/ws/ws.go`.  The handler is sequential code around
calls into three libraries (gorilla/websocket, encoding/json, x/crypto/ssh).
Every library call is modelled as

* an `Event` appended to the trace (the call and its arguments), and
* an outcome taken from the environment record `Env` of the current loop
  iteration (the value the library returned).

The handler state is the three local variables `client`, `session`, `stdin`
(a Go nil is `none`).  Go `error` values are modelled by their text
(`none` is a nil error).  Log statements (`logx.*`) have no effect on control
flow or on the variables and are left out.

The two `go func() { io.Copy ... }` statements are modelled as spawn events.
The spawned forwarders write to the same `*websocket.Conn` as the receive loop,
through the same unlocked `ws.WriteMessage` call (line 63, reached from line 72).
Two layers describe the loop:

* `iteration` / `loop`: a pass whose channel write returns to the caller;
* `pass` / `run`: a pass whose channel write may collide with a write of a
  forwarder, in which case the library call panics and the handler ends there
  (`WriteOutcome`).
-/

namespace WebSSH

/-! ## Data model (ws.go lines 14-46) -/

abbrev ResponseCode := Int
abbrev MessageType := String

def OutputResponseCode : ResponseCode := 0
def ConSuccessResponseCode : ResponseCode := 1
def ErrorResponseCode : ResponseCode := 2

def ConnectMessageTypeCode : MessageType := "connect"
def DataMessageTypeCode : MessageType := "data"
def ResizeMessageTypeCode : MessageType := "resize"

/-- The record `WSMessage`; the field `Type` of the source is `Typ` here
(`Type` is reserved). -/
structure WSMessage where
  Typ : MessageType
  Host : String
  Port : Int
  Username : String
  Password : String
  Data : String
  Rows : Int
  Cols : Int
  deriving DecidableEq, Repr

structure WSResponse where
  Code : ResponseCode
  Message : String
  deriving DecidableEq, Repr

/-! ## Library values -/

/-- A Go `error`: `none` is nil, `some t` an error whose `Error()` text is `t`. -/
abbrev GoError := Option String

/-- A `*ssh.Client`. -/
structure Client where
  id : Nat
  deriving DecidableEq, Repr

/-- A `*ssh.Session`. -/
structure Session where
  id : Nat
  deriving DecidableEq, Repr

/-- The `io.WriteCloser` returned by `session.StdinPipe()`. -/
structure Stdin where
  id : Nat
  deriving DecidableEq, Repr

/-- The `io.Reader` returned by `session.StdoutPipe()` / `StderrPipe()`. -/
structure Reader where
  id : Nat
  deriving DecidableEq, Repr

/-- An `ssh.AuthMethod`; the source only builds `ssh.Password(p)`. -/
inductive AuthMethod where
  | Password (p : String)
  deriving DecidableEq, Repr

/-- An `ssh.HostKeyCallback`; the source only builds `ssh.InsecureIgnoreHostKey()`. -/
inductive HostKeyCallback where
  | InsecureIgnoreHostKey
  deriving DecidableEq, Repr

/-- `time.Second`, in nanoseconds (a `time.Duration` counts nanoseconds). -/
def Second : Nat := 1000000000

/-- The fields of `ssh.ClientConfig` that the source sets. -/
structure ClientConfig where
  User : String
  Auth : List AuthMethod
  Timeout : Nat
  HostKeyCallback : HostKeyCallback
  deriving DecidableEq, Repr

/-- The keys of `ssh.TerminalModes` that the source uses. -/
inductive TerminalMode where
  | ECHO
  | TTY_OP_ISPEED
  | TTY_OP_OSPEED
  deriving DecidableEq, Repr

/-- The conversion `[]byte(s)`: the bytes of the string. -/
def bytesOf (s : String) : List UInt8 := s.toUTF8.data.toList

/-! ## Trace events: the calls the handler makes -/

inductive Event where
  /-- The call `ws.WriteMessage(websocket.TextMessage, data)`, `data` the JSON of `resp`. -/
  | wsWrite (resp : WSResponse)
  /-- The call `ssh.Dial(network, addr, cfg)` and the client it returned (nil on error). -/
  | dial (network addr : String) (cfg : ClientConfig) (res : Option Client)
  /-- The call `client.NewSession()` and the session it returned (nil on error). -/
  | newSession (c : Client) (res : Option Session)
  /-- The call `session.RequestPty(term, h, w, modes)`. -/
  | requestPty (s : Session) (term : String) (h w : Int) (modes : List (TerminalMode × Nat))
  | stdinPipe (s : Session)
  | stdoutPipe (s : Session)
  | stderrPipe (s : Session)
  /-- The statement `go func() { io.Copy(&wsWriter{ws}, src) ... }()`. -/
  | goCopy (src : Reader)
  /-- The call `session.Shell()`. -/
  | shell (s : Session)
  /-- The call `session.WindowChange(h, w)`. -/
  | windowChange (s : Session) (h w : Int)
  /-- The call `stdin.Write(p)`. -/
  | stdinWrite (w : Stdin) (p : List UInt8)
  | stdinClose (w : Stdin)
  | sessionClose (s : Session)
  | clientClose (c : Client)
  /-- The deferred `ws.Close()`. -/
  | wsClose
  deriving DecidableEq, Repr

/-- The local variables `client`, `session`, `stdin` of `SSHHandle` (lines 85-89). -/
structure State where
  client : Option Client
  session : Option Session
  stdin : Option Stdin
  deriving DecidableEq, Repr

/-- The values of the three variables at loop entry: all nil. -/
def State.init : State := ⟨none, none, none⟩

/-- What the libraries return during one loop iteration.  A field is read only
if the iteration reaches the call.  `dial` and `newSession` return the handle or
an error (the libraries return a nil handle together with a non-nil error). -/
structure Env where
  /-- `ws.ReadMessage()`: the frame, or the read error. -/
  readMessage : Except String (List UInt8)
  /-- `json.Unmarshal(msgBytes, &msg)`: the decoded record, or the decode error. -/
  unmarshal : Except String WSMessage
  dial : Except String Client
  newSession : Except String Session
  requestPty : GoError
  /-- `session.StdinPipe()`: the writer (its error result is discarded by the source). -/
  stdinPipe : Option Stdin
  stdoutPipe : Reader
  stderrPipe : Reader
  shell : GoError
  windowChange : GoError
  stdinWrite : GoError

/-! ## The handler -/

/-- The helper `sendWSMessage` (lines 57-64), its `ws.WriteMessage` call returning: one
text frame carrying the JSON of the response; the errors of `json.Marshal` and
`ws.WriteMessage` are discarded.  A call that does not return is modelled in `pass`. -/
def sendWSMessage (code : ResponseCode) (msg : String) : List Event :=
  [Event.wsWrite { Code := code, Message := msg }]

/-- The terminal modes built at lines 136-140. -/
def modes : List (TerminalMode × Nat) :=
  [(TerminalMode.ECHO, 1), (TerminalMode.TTY_OP_ISPEED, 14400), (TerminalMode.TTY_OP_OSPEED, 14400)]

/-- The `case ConnectMessageTypeCode` arm (lines 106-169). -/
def handleConnect (st : State) (msg : WSMessage) (env : Env) : State × List Event :=
  let port := if msg.Port = 0 then 22 else msg.Port
  let cfg : ClientConfig :=
    { User := msg.Username
      Auth := [AuthMethod.Password msg.Password]
      Timeout := 10 * Second
      HostKeyCallback := HostKeyCallback.InsecureIgnoreHostKey }
  let addr := msg.Host ++ ":" ++ toString port
  -- client, err = ssh.Dial("tcp", addr, cfg)
  match env.dial with
  | .error _ =>
    ({ st with client := none },
      [Event.dial "tcp" addr cfg none] ++ sendWSMessage ErrorResponseCode "SSH 连接失败\r\n")
  | .ok c =>
    let st1 : State := { st with client := some c }
    let tr1 := [Event.dial "tcp" addr cfg (some c)]
    -- session, err = client.NewSession()
    match env.newSession with
    | .error _ =>
      ({ st1 with session := none },
        tr1 ++ [Event.newSession c none] ++ sendWSMessage ErrorResponseCode "创建会话失败\r\n")
    | .ok s =>
      let st2 : State := { st1 with session := some s }
      let tr2 := tr1 ++ [Event.newSession c (some s),
        Event.requestPty s "xterm-256color" 40 120 modes]
      -- if err := session.RequestPty(...); err != nil: the error is logged only
      let tr2 :=
        match env.requestPty with
        | some _ => tr2
        | none => tr2
      -- stdin, _ = session.StdinPipe(); stdout, _ := ...; stderr, _ := ...
      let st3 : State := { st2 with stdin := env.stdinPipe }
      let tr3 := tr2 ++ [Event.stdinPipe s, Event.stdoutPipe s, Event.stderrPipe s,
        Event.goCopy env.stdoutPipe, Event.goCopy env.stderrPipe]
      -- session.Shell()
      match env.shell with
      | some _ =>
        (st3, tr3 ++ [Event.shell s] ++ sendWSMessage ErrorResponseCode "启动 Shell 失败\r\n")
      | none =>
        (st3, tr3 ++ [Event.shell s] ++ sendWSMessage ConSuccessResponseCode "SSH 连接成功\r\n")

/-- The `case ResizeMessageTypeCode` arm (lines 171-177). -/
def handleResize (st : State) (msg : WSMessage) (env : Env) : State × List Event :=
  match st.session with
  | none => (st, [])
  | some s =>
    match env.windowChange with
    | none => (st, [Event.windowChange s msg.Rows msg.Cols])
    | some e =>
      (st, [Event.windowChange s msg.Rows msg.Cols] ++
        sendWSMessage ErrorResponseCode ("Resize 失败: " ++ e ++ "\r\n"))

/-- The `case DataMessageTypeCode` arm (lines 179-186). -/
def handleData (st : State) (msg : WSMessage) (env : Env) : State × List Event :=
  match st.stdin with
  | none => (st, [])
  | some w =>
    match env.stdinWrite with
    | none => (st, [Event.stdinWrite w (bytesOf msg.Data)])
    | some e =>
      (st, [Event.stdinWrite w (bytesOf msg.Data)] ++
        sendWSMessage ErrorResponseCode ("命令发送失败: " ++ e ++ "\r\n"))

/-- The `switch msg.Type` statement (lines 105-187); no arm for any other type. -/
def dispatch (st : State) (msg : WSMessage) (env : Env) : State × List Event :=
  if msg.Typ = ConnectMessageTypeCode then handleConnect st msg env
  else if msg.Typ = ResizeMessageTypeCode then handleResize st msg env
  else if msg.Typ = DataMessageTypeCode then handleData st msg env
  else (st, [])

/-- How one pass through the loop body ends: `brk` leaves the `for`, `next` starts
the next pass (every `continue` and the end of the body). -/
inductive Control where
  | brk
  | next
  deriving DecidableEq, Repr

structure Step where
  control : Control
  state : State
  events : List Event
  deriving DecidableEq, Repr

/-- One pass through the body of the `for` loop (lines 91-188), the `ws.WriteMessage`
call of the pass (if it makes one) returning. -/
def iteration (st : State) (env : Env) : Step :=
  match env.readMessage with
  | .error _ => ⟨Control.brk, st, []⟩
  | .ok _ =>
    match env.unmarshal with
    | .error _ => ⟨Control.next, st, sendWSMessage ErrorResponseCode "消息解析失败\r\n"⟩
    | .ok msg =>
      let r := dispatch st msg env
      ⟨Control.next, r.1, r.2⟩

/-- The result of running the loop over a finite sequence of iterations:
`exited` tells whether the loop was left; when it is false the loop is waiting
in `ws.ReadMessage()` for the next frame. -/
structure Run where
  state : State
  events : List Event
  exited : Bool
  deriving DecidableEq, Repr

/-- The `for` loop (lines 91-188) over the environments of its successive passes. -/
def loop : State → List Env → Run
  | st, [] => ⟨st, [], false⟩
  | st, env :: rest =>
    let s := iteration st env
    match s.control with
    | Control.brk => ⟨s.state, s.events, true⟩
    | Control.next =>
      let r := loop s.state rest
      ⟨r.state, s.events ++ r.events, r.exited⟩

/-- What the three `Close` calls of the teardown return. -/
structure CloseEnv where
  stdinClose : GoError
  sessionClose : GoError
  clientClose : GoError

/-- The teardown (lines 190-199); every close result is assigned to `_`. -/
def teardown (st : State) (ce : CloseEnv) : List Event :=
  let tr0 : List Event := []
  let tr1 :=
    match st.stdin with
    | some w => let _ := ce.stdinClose; tr0 ++ [Event.stdinClose w]
    | none => tr0
  let tr2 :=
    match st.session with
    | some s => let _ := ce.sessionClose; tr1 ++ [Event.sessionClose s]
    | none => tr1
  let tr3 :=
    match st.client with
    | some c => let _ := ce.clientClose; tr2 ++ [Event.clientClose c]
    | none => tr2
  tr3

/-- The function `SSHHandle` (lines 76-202): the trace of its run over the given
iterations, and whether it returned.  `upgrade` is the error of
`upgrader.Upgrade`. -/
def SSHHandle (upgrade : GoError) (envs : List Env) (ce : CloseEnv) : List Event × Bool :=
  match upgrade with
  | some _ => ([], true)
  | none =>
    let r := loop State.init envs
    if r.exited then (r.events ++ teardown r.state ce ++ [Event.wsClose], true)
    else (r.events, false)

/-! ## Observations on traces -/

/-- The responses written to the channel in a trace, in order. -/
def responses : List Event → List WSResponse
  | [] => []
  | Event.wsWrite resp :: rest => resp :: responses rest
  | _ :: rest => responses rest

/-- The number of responses with the given code written in a trace. -/
def countCode (code : ResponseCode) (tr : List Event) : Nat :=
  ((responses tr).filter (fun resp => resp.Code = code)).length

/-- A call into the remote-shell library. -/
def Event.isShellOp : Event → Bool
  | Event.wsWrite _ => false
  | Event.wsClose => false
  | _ => true

/-- A shell-side operation of a `resize` or `data` message. -/
def Event.isWindowChangeOrWrite : Event → Bool
  | Event.windowChange _ _ _ => true
  | Event.stdinWrite _ _ => true
  | _ => false

def Event.isWindowChange : Event → Bool
  | Event.windowChange _ _ _ => true
  | _ => false

def Event.isStdinWrite : Event → Bool
  | Event.stdinWrite _ _ => true
  | _ => false

def Event.isDial : Event → Bool
  | Event.dial _ _ _ _ => true
  | _ => false

/-- The connections that are live after a trace: returned by a successful dial
and not closed since. -/
def liveClients : List Client → List Event → List Client
  | live, [] => live
  | live, Event.dial _ _ _ (some c) :: rest => liveClients (live ++ [c]) rest
  | live, Event.clientClose c :: rest => liveClients (live.filter (fun d => d ≠ c)) rest
  | live, _ :: rest => liveClients live rest

/-- An iteration whose `connect` got a session: the frame was read and decoded
to a `connect` message, the dial succeeded and the session was created. -/
def Env.createsSession (env : Env) : Bool :=
  match env.readMessage, env.unmarshal, env.dial, env.newSession with
  | .ok _, .ok msg, .ok _, .ok _ => msg.Typ = ConnectMessageTypeCode
  | _, _, _, _ => false

def Event.isGoCopy : Event → Bool
  | Event.goCopy _ => true
  | _ => false

/-! ## Channel writes that collide with a forwarder -/

/-- What the call `ws.WriteMessage` of line 63 does when the receive loop makes it.
The forwarders started at lines 148-161 call it on the same connection (line 72) and
nothing serialises the callers.  gorilla/websocket detects a concurrent write and
panics with "concurrent write to websocket connection": `panicBefore` when the check made
before the frame is written fails (the frame is not written), `panicAfter` when the check
made after it fails (the frame was written). -/
inductive WriteOutcome where
  | returned
  | panicBefore
  | panicAfter
  deriving DecidableEq, Repr

/-- How one pass through the loop body ends when the channel write may panic:
`panicked` unwinds `SSHHandle` from line 63, so neither the next read nor the
teardown of lines 190-199 is reached. -/
inductive PassEnd where
  | brk
  | next
  | panicked
  deriving DecidableEq, Repr

def Control.toPassEnd : Control → PassEnd
  | Control.brk => PassEnd.brk
  | Control.next => PassEnd.next

structure Pass where
  ending : PassEnd
  state : State
  events : List Event
  deriving DecidableEq, Repr

/-- One pass through the body of the `for` loop (lines 91-188) with the outcome `w` of
its `ws.WriteMessage` call.  Every path through the body calls `sendWSMessage` at most
once, as its last call (lines 101, 124, 132, 165, 169, 175, 184), so the calls of the pass
are those of `iteration` up to that write.  `started` tells whether a forwarder was
started in an earlier pass; a write can only collide when a forwarder exists, started
earlier or in this pass. -/
def pass (started : Bool) (st : State) (env : Env) (w : WriteOutcome) : Pass :=
  let s := iteration st env
  match s.events.getLast? with
  | some (Event.wsWrite _) =>
    if started || s.events.any Event.isGoCopy then
      match w with
      | WriteOutcome.returned => ⟨s.control.toPassEnd, s.state, s.events⟩
      | WriteOutcome.panicBefore => ⟨PassEnd.panicked, s.state, s.events.dropLast⟩
      | WriteOutcome.panicAfter => ⟨PassEnd.panicked, s.state, s.events⟩
    else ⟨s.control.toPassEnd, s.state, s.events⟩
  | _ => ⟨s.control.toPassEnd, s.state, s.events⟩

/-- How a run of the loop over finitely many passes stands: `waiting` in
`ws.ReadMessage()` for the next frame, `exited` through the `break` of line 95, or
`panicked` in a channel write. -/
inductive RunEnd where
  | waiting
  | exited
  | panicked
  deriving DecidableEq, Repr

structure RunResult where
  ending : RunEnd
  state : State
  events : List Event
  deriving DecidableEq, Repr

/-- The `for` loop (lines 91-188) over the environments of its successive passes, each
with the outcome of its channel write. -/
def run : Bool → State → List (Env × WriteOutcome) → RunResult
  | _, st, [] => ⟨RunEnd.waiting, st, []⟩
  | started, st, (env, w) :: rest =>
    let p := pass started st env w
    match p.ending with
    | PassEnd.brk => ⟨RunEnd.exited, p.state, p.events⟩
    | PassEnd.panicked => ⟨RunEnd.panicked, p.state, p.events⟩
    | PassEnd.next =>
      let r := run (started || p.events.any Event.isGoCopy) p.state rest
      ⟨r.ending, r.state, p.events ++ r.events⟩

/-- The channel read of the pass returned a frame. -/
def Env.readOk (env : Env) : Bool :=
  match env.readMessage with
  | .ok _ => true
  | .error _ => false

/-! ## Concrete inputs -/

def connectMsg : WSMessage :=
  { Typ := "connect", Host := "10.0.0.5", Port := 0, Username := "root", Password := "x",
    Data := "", Rows := 0, Cols := 0 }

def resizeMsg : WSMessage :=
  { Typ := "resize", Host := "", Port := 0, Username := "", Password := "",
    Data := "", Rows := 50, Cols := 150 }

def dataMsg : WSMessage :=
  { Typ := "data", Host := "", Port := 0, Username := "", Password := "",
    Data := "ls\n", Rows := 0, Cols := 0 }

/-- An environment in which a frame decoding to `msg` is read and every
library call succeeds, the dial returning client `n` and session `n`. -/
def envOk (msg : WSMessage) (n : Nat) : Env :=
  { readMessage := .ok []
    unmarshal := .ok msg
    dial := .ok ⟨n⟩
    newSession := .ok ⟨n⟩
    requestPty := none
    stdinPipe := some ⟨n⟩
    stdoutPipe := ⟨2 * n⟩
    stderrPipe := ⟨2 * n + 1⟩
    shell := none
    windowChange := none
    stdinWrite := none }

/-- A `connect` iteration in which dial and session creation succeed (client 1,
session 1, stdin 1) and `session.Shell()` fails. -/
def envShellFails : Env :=
  { envOk connectMsg 1 with shell := some "ssh: could not start shell" }

/-- A `connect` iteration in which the dial fails. -/
def envDialFails : Env :=
  { envOk connectMsg 2 with dial := .error "dial tcp 10.0.0.5:22: i/o timeout" }

/-- A `connect` message with an explicit port. -/
def connectMsg2222 : WSMessage := { connectMsg with Port := 2222 }

/-- A pass in which a frame is read and `json.Unmarshal` fails on it. -/
def envMalformed : Env :=
  { envOk connectMsg 0 with unmarshal := .error "unexpected end of JSON input" }

/-- A `resize` pass in which `session.WindowChange` fails. -/
def envResizeFails : Env :=
  { envOk resizeMsg 0 with windowChange := some "EOF" }

/-- An environment in which the channel read fails. -/
def envClosed : Env :=
  { envOk connectMsg 0 with readMessage := .error "close 1006" }

/-! ## Helper lemmas -/

theorem resize_ne_connect : ResizeMessageTypeCode ≠ ConnectMessageTypeCode := by decide

theorem data_ne_connect : DataMessageTypeCode ≠ ConnectMessageTypeCode := by decide

theorem data_ne_resize : DataMessageTypeCode ≠ ResizeMessageTypeCode := by decide

theorem dispatch_connect (st : State) (msg : WSMessage) (env : Env)
    (h : msg.Typ = ConnectMessageTypeCode) : dispatch st msg env = handleConnect st msg env := by
  simp [dispatch, h]

theorem dispatch_resize (st : State) (msg : WSMessage) (env : Env)
    (h : msg.Typ = ResizeMessageTypeCode) : dispatch st msg env = handleResize st msg env := by
  simp [dispatch, h, resize_ne_connect]

theorem dispatch_data (st : State) (msg : WSMessage) (env : Env)
    (h : msg.Typ = DataMessageTypeCode) : dispatch st msg env = handleData st msg env := by
  simp [dispatch, h, data_ne_connect, data_ne_resize]

theorem iteration_decoded (st : State) (env : Env) (bytes : List UInt8) (msg : WSMessage)
    (hread : env.readMessage = .ok bytes) (hdec : env.unmarshal = .ok msg) :
    iteration st env = ⟨Control.next, (dispatch st msg env).1, (dispatch st msg env).2⟩ := by
  simp [iteration, hread, hdec]

/-- An iteration that does not create a session leaves `session` and `stdin` nil. -/
theorem iteration_keeps_no_session (st : State) (env : Env)
    (hs : st.session = none) (hw : st.stdin = none) (hc : env.createsSession = false) :
    (iteration st env).state.session = none ∧ (iteration st env).state.stdin = none := by
  cases hread : env.readMessage with
  | error e => simp [iteration, hread, hs, hw]
  | ok bytes =>
    cases hdec : env.unmarshal with
    | error e => simp [iteration, hread, hdec, hs, hw]
    | ok msg =>
      rw [iteration_decoded st env bytes msg hread hdec]
      by_cases h1 : msg.Typ = ConnectMessageTypeCode
      · rw [dispatch_connect st msg env h1]
        cases hdial : env.dial with
        | error e => simp [handleConnect, hdial, hs, hw]
        | ok c =>
          cases hsess : env.newSession with
          | error e => simp [handleConnect, hdial, hsess, hw]
          | ok s => simp [Env.createsSession, hread, hdec, hdial, hsess, h1] at hc
      · by_cases h2 : msg.Typ = ResizeMessageTypeCode
        · rw [dispatch_resize st msg env h2]
          simp [handleResize, hs, hw]
        · by_cases h3 : msg.Typ = DataMessageTypeCode
          · rw [dispatch_data st msg env h3]
            simp [handleData, hs, hw]
          · simp [dispatch, h1, h2, h3, hs, hw]

/-- A run of the loop in which no iteration creates a session ends with `session`
and `stdin` nil. -/
theorem loop_keeps_no_session (envs : List Env) (st : State)
    (hs : st.session = none) (hw : st.stdin = none)
    (hc : ∀ env ∈ envs, env.createsSession = false) :
    (loop st envs).state.session = none ∧ (loop st envs).state.stdin = none := by
  induction envs generalizing st with
  | nil => simp [loop, hs, hw]
  | cons env rest ih =>
    have h1 := iteration_keeps_no_session st env hs hw (hc env (by simp))
    have h2 := ih (iteration st env).state h1.1 h1.2
      (fun e he => hc e (List.mem_cons_of_mem _ he))
    cases hctl : (iteration st env).control with
    | brk => simp [loop, hctl, h1]
    | next => simp [loop, hctl, h2]

theorem iteration_control (st : State) (env : Env) :
    (iteration st env).control = Control.brk ↔ ∃ e, env.readMessage = .error e := by
  cases hread : env.readMessage with
  | error e => simp [iteration, hread]
  | ok bytes =>
    cases hdec : env.unmarshal <;> simp [iteration, hread, hdec]

/-- A pass makes at most one channel write, and it is the last call of the pass. -/
theorem iteration_write_is_last (st : State) (env : Env) :
    responses (iteration st env).events.dropLast = [] := by
  cases hread : env.readMessage with
  | error e => simp [iteration, hread, responses]
  | ok bytes =>
    cases hdec : env.unmarshal with
    | error e => simp [iteration, hread, hdec, sendWSMessage, responses]
    | ok msg =>
      rw [iteration_decoded st env bytes msg hread hdec]
      by_cases h1 : msg.Typ = ConnectMessageTypeCode
      · rw [dispatch_connect st msg env h1]
        cases hdial : env.dial <;> cases hsess : env.newSession <;>
          cases hshell : env.shell <;> cases hpty : env.requestPty <;>
          simp [handleConnect, hdial, hsess, hshell, hpty, sendWSMessage, responses]
      · by_cases h2 : msg.Typ = ResizeMessageTypeCode
        · rw [dispatch_resize st msg env h2]
          cases hs : st.session <;> cases hw : env.windowChange <;>
            simp [handleResize, hs, hw, sendWSMessage, responses]
        · by_cases h3 : msg.Typ = DataMessageTypeCode
          · rw [dispatch_data st msg env h3]
            cases hs : st.stdin <;> cases hw : env.stdinWrite <;>
              simp [handleData, hs, hw, sendWSMessage, responses]
          · simp [dispatch, h1, h2, h3, responses]

/-- A pass whose channel write returns is the pass of `iteration`. -/
theorem pass_returned (started : Bool) (st : State) (env : Env) :
    pass started st env WriteOutcome.returned =
      ⟨(iteration st env).control.toPassEnd, (iteration st env).state,
        (iteration st env).events⟩ := by
  simp only [pass]
  split <;> simp

/-- While no forwarder exists the channel write cannot collide: the pass is the pass
of `iteration` whatever the outcome offered. -/
theorem pass_without_forwarder (st : State) (env : Env) (w : WriteOutcome)
    (h : (iteration st env).events.any Event.isGoCopy = false) :
    pass false st env w =
      ⟨(iteration st env).control.toPassEnd, (iteration st env).state,
        (iteration st env).events⟩ := by
  simp only [pass]
  split <;> simp [h]

/-! ## Theorems -/

/-- With the channel write returning: a `connect` whose dial, session creation and shell
start succeed (whatever the PTY request returns) produces exactly the calls dial, NewSession,
RequestPty("xterm-256color", 40, 120), the three pipes, the two forwarders, Shell and
then the CONNECT_OK response: one response with code 1, none with code 2, and the
code 1 response is the last event, after session creation, PTY request and shell start. -/
theorem connect_success_emits_connect_ok_last (st : State) (env : Env) (bytes : List UInt8)
    (msg : WSMessage) (c : Client) (s : Session)
    (hread : env.readMessage = .ok bytes) (hdec : env.unmarshal = .ok msg)
    (htype : msg.Typ = ConnectMessageTypeCode)
    (hdial : env.dial = .ok c) (hsess : env.newSession = .ok s) (hshell : env.shell = none) :
    (∃ addr cfg, (iteration st env).events =
      [Event.dial "tcp" addr cfg (some c),
       Event.newSession c (some s),
       Event.requestPty s "xterm-256color" 40 120 modes,
       Event.stdinPipe s, Event.stdoutPipe s, Event.stderrPipe s,
       Event.goCopy env.stdoutPipe, Event.goCopy env.stderrPipe,
       Event.shell s,
       Event.wsWrite ⟨ConSuccessResponseCode, "SSH 连接成功\r\n"⟩])
    ∧ countCode ConSuccessResponseCode (iteration st env).events = 1
    ∧ countCode ErrorResponseCode (iteration st env).events = 0 := by
  rw [iteration_decoded st env bytes msg hread hdec, dispatch_connect st msg env htype]
  cases hpty : env.requestPty <;>
    simp [handleConnect, hdial, hsess, hshell, hpty, sendWSMessage, countCode, responses,
      ConSuccessResponseCode, ErrorResponseCode]

/-- An instance of the lemma above: the connect message of the spec scenario, with a
failing PTY request. -/
theorem connect_success_emits_connect_ok_last_witness :
    countCode ConSuccessResponseCode
        (iteration State.init { envOk connectMsg 1 with requestPty := some "pty denied" }).events = 1
    ∧ countCode ErrorResponseCode
        (iteration State.init { envOk connectMsg 1 with requestPty := some "pty denied" }).events = 0 :=
  (connect_success_emits_connect_ok_last State.init
    { envOk connectMsg 1 with requestPty := some "pty denied" } [] connectMsg ⟨1⟩ ⟨1⟩
    rfl rfl rfl rfl rfl rfl).2

/-- C2: a `connect` that fails at the dial, at the session creation or at the shell
start writes exactly one response with code 2 and none with code 1. -/
theorem connect_failure_emits_one_error (st : State) (env : Env) (bytes : List UInt8)
    (msg : WSMessage)
    (hread : env.readMessage = .ok bytes) (hdec : env.unmarshal = .ok msg)
    (htype : msg.Typ = ConnectMessageTypeCode)
    (hfail : (∃ e, env.dial = .error e)
      ∨ (∃ c e, env.dial = .ok c ∧ env.newSession = .error e)
      ∨ (∃ c s e, env.dial = .ok c ∧ env.newSession = .ok s ∧ env.shell = some e)) :
    countCode ErrorResponseCode (iteration st env).events = 1
    ∧ countCode ConSuccessResponseCode (iteration st env).events = 0 := by
  rw [iteration_decoded st env bytes msg hread hdec, dispatch_connect st msg env htype]
  rcases hfail with ⟨e, hdial⟩ | ⟨c, e, hdial, hsess⟩ | ⟨c, s, e, hdial, hsess, hshell⟩
  · simp [handleConnect, hdial, sendWSMessage, countCode, responses,
      ConSuccessResponseCode, ErrorResponseCode]
  · simp [handleConnect, hdial, hsess, sendWSMessage, countCode, responses,
      ConSuccessResponseCode, ErrorResponseCode]
  · cases hpty : env.requestPty <;>
      simp [handleConnect, hdial, hsess, hshell, hpty, sendWSMessage, countCode, responses,
        ConSuccessResponseCode, ErrorResponseCode]

/-- Witness of C2: the spec scenario of an unreachable host (the dial fails). -/
theorem connect_failure_emits_one_error_witness :
    countCode ErrorResponseCode
        (iteration State.init { envOk connectMsg 1 with dial := .error "i/o timeout" }).events = 1
    ∧ countCode ConSuccessResponseCode
        (iteration State.init { envOk connectMsg 1 with dial := .error "i/o timeout" }).events = 0 :=
  connect_failure_emits_one_error State.init
    { envOk connectMsg 1 with dial := .error "i/o timeout" } [] connectMsg
    rfl rfl rfl (Or.inl ⟨"i/o timeout", rfl⟩)

/-- With the channel write returning: a frame that fails to decode, in any state, writes
exactly one response (code 2),
makes no call into the remote-shell library, leaves `client`, `session` and `stdin`
unchanged, and the loop goes on with the next read. -/
theorem malformed_frame_one_error_and_continue (st : State) (env : Env) (bytes : List UInt8)
    (e : String) (rest : List Env)
    (hread : env.readMessage = .ok bytes) (hdec : env.unmarshal = .error e) :
    (iteration st env).events = [Event.wsWrite ⟨ErrorResponseCode, "消息解析失败\r\n"⟩]
    ∧ countCode ErrorResponseCode (iteration st env).events = 1
    ∧ (∀ ev ∈ (iteration st env).events, ev.isShellOp = false)
    ∧ (iteration st env).state = st
    ∧ (iteration st env).control = Control.next
    ∧ loop st (env :: rest) =
        ⟨(loop st rest).state,
         Event.wsWrite ⟨ErrorResponseCode, "消息解析失败\r\n"⟩ :: (loop st rest).events,
         (loop st rest).exited⟩ := by
  have hit : iteration st env =
      ⟨Control.next, st, [Event.wsWrite ⟨ErrorResponseCode, "消息解析失败\r\n"⟩]⟩ := by
    simp [iteration, hread, hdec, sendWSMessage]
  refine ⟨by rw [hit], ?_, ?_, by rw [hit], by rw [hit], ?_⟩
  · simp [hit, countCode, responses]
  · simp [hit, Event.isShellOp]
  · simp [loop, hit]

/-- An instance of the lemma above: a malformed frame while a connection is held,
followed by a read failure. -/
theorem malformed_frame_one_error_and_continue_witness :
    (iteration ⟨some ⟨1⟩, some ⟨1⟩, some ⟨1⟩⟩
        { envOk connectMsg 2 with unmarshal := .error "unexpected end of JSON input" }).state
      = ⟨some ⟨1⟩, some ⟨1⟩, some ⟨1⟩⟩
    ∧ (iteration ⟨some ⟨1⟩, some ⟨1⟩, some ⟨1⟩⟩
        { envOk connectMsg 2 with unmarshal := .error "unexpected end of JSON input" }).control
      = Control.next :=
  let h := malformed_frame_one_error_and_continue ⟨some ⟨1⟩, some ⟨1⟩, some ⟨1⟩⟩
    { envOk connectMsg 2 with unmarshal := .error "unexpected end of JSON input" } []
    "unexpected end of JSON input" [envClosed] rfl rfl
  ⟨h.2.2.2.1, h.2.2.2.2.1⟩

/-- C4: a `data` message handled while `stdin` is non-nil makes exactly one `stdin.Write`,
whose argument is the bytes of `msg.Data`; no response is written when the write succeeds,
and exactly one, with code 2, when it fails. -/
theorem data_writes_bytes_verbatim (st : State) (env : Env) (bytes : List UInt8)
    (msg : WSMessage) (w : Stdin)
    (hread : env.readMessage = .ok bytes) (hdec : env.unmarshal = .ok msg)
    (htype : msg.Typ = DataMessageTypeCode) (hstdin : st.stdin = some w) :
    (iteration st env).events.filter Event.isStdinWrite
        = [Event.stdinWrite w (bytesOf msg.Data)]
    ∧ (∀ ev ∈ (iteration st env).events, ev.isStdinWrite = true ∨ ev.isShellOp = false)
    ∧ (env.stdinWrite = none → responses (iteration st env).events = [])
    ∧ (∀ e, env.stdinWrite = some e →
        ∃ m, responses (iteration st env).events = [⟨ErrorResponseCode, m⟩]) := by
  rw [iteration_decoded st env bytes msg hread hdec, dispatch_data st msg env htype]
  cases hw : env.stdinWrite <;>
    simp [handleData, hstdin, hw, sendWSMessage, responses, Event.isStdinWrite,
      Event.isShellOp]

/-- Witness of C4: the spec scenario, `data` carrying `ls\n` after a connection. -/
theorem data_writes_bytes_verbatim_witness :
    bytesOf dataMsg.Data = [108, 115, 10]
    ∧ (iteration ⟨some ⟨1⟩, some ⟨1⟩, some ⟨1⟩⟩ (envOk dataMsg 0)).events.filter
        Event.isStdinWrite = [Event.stdinWrite ⟨1⟩ (bytesOf dataMsg.Data)] :=
  ⟨by decide,
   (data_writes_bytes_verbatim ⟨some ⟨1⟩, some ⟨1⟩, some ⟨1⟩⟩ (envOk dataMsg 0) [] dataMsg ⟨1⟩
      rfl rfl rfl rfl).1⟩

/-- C6: a `resize` message handled while `session` is non-nil makes exactly one
`session.WindowChange(msg.Rows, msg.Cols)` (rows as height, cols as width); no response is
written when it succeeds, and exactly one, with code 2 and a message containing the
error text, when it fails. -/
theorem resize_forwards_rows_cols (st : State) (env : Env) (bytes : List UInt8)
    (msg : WSMessage) (s : Session)
    (hread : env.readMessage = .ok bytes) (hdec : env.unmarshal = .ok msg)
    (htype : msg.Typ = ResizeMessageTypeCode) (hsess : st.session = some s) :
    (iteration st env).events.filter Event.isWindowChange
        = [Event.windowChange s msg.Rows msg.Cols]
    ∧ (∀ ev ∈ (iteration st env).events, ev.isWindowChange = true ∨ ev.isShellOp = false)
    ∧ (env.windowChange = none → responses (iteration st env).events = [])
    ∧ (∀ e, env.windowChange = some e →
        ∃ m, responses (iteration st env).events = [⟨ErrorResponseCode, m⟩]
          ∧ e.data <:+: m.data) := by
  rw [iteration_decoded st env bytes msg hread hdec, dispatch_resize st msg env htype]
  cases hw : env.windowChange with
  | none =>
    simp [handleResize, hsess, hw, responses, Event.isWindowChange, Event.isShellOp]
  | some e =>
    simp only [handleResize, hsess, hw, sendWSMessage]
    refine ⟨by simp [Event.isWindowChange], by simp [Event.isWindowChange, Event.isShellOp],
      by simp, ?_⟩
    intro e1 he1
    cases he1
    refine ⟨"Resize 失败: " ++ e ++ "\r\n", by simp [responses], ?_⟩
    exact ⟨"Resize 失败: ".data, "\r\n".data, by simp [String.data_append]⟩

/-- Witness of C6: the spec scenario, `resize` to 50 rows and 150 columns after a connection. -/
theorem resize_forwards_rows_cols_witness :
    (iteration ⟨some ⟨1⟩, some ⟨1⟩, some ⟨1⟩⟩ (envOk resizeMsg 0)).events.filter
        Event.isWindowChange = [Event.windowChange ⟨1⟩ 50 150] :=
  (resize_forwards_rows_cols ⟨some ⟨1⟩, some ⟨1⟩, some ⟨1⟩⟩ (envOk resizeMsg 0) [] resizeMsg ⟨1⟩
      rfl rfl rfl rfl).1

/-- C7: a `connect` message makes one dial, over "tcp", to the address made of `msg.Host`,
a colon and the decimal port (22 when `msg.Port` is 0, `msg.Port` otherwise), with
`msg.Username`, the password `msg.Password` and a timeout of 10 seconds; the dial is the
first call of the iteration. -/
theorem connect_dials_host_port (st : State) (env : Env) (bytes : List UInt8)
    (msg : WSMessage)
    (hread : env.readMessage = .ok bytes) (hdec : env.unmarshal = .ok msg)
    (htype : msg.Typ = ConnectMessageTypeCode) :
    ∃ addr res,
      (iteration st env).events.filter Event.isDial =
        [Event.dial "tcp" addr
          { User := msg.Username, Auth := [AuthMethod.Password msg.Password],
            Timeout := 10 * 1000000000,
            HostKeyCallback := HostKeyCallback.InsecureIgnoreHostKey } res]
      ∧ (iteration st env).events.head? =
        some (Event.dial "tcp" addr
          { User := msg.Username, Auth := [AuthMethod.Password msg.Password],
            Timeout := 10 * 1000000000,
            HostKeyCallback := HostKeyCallback.InsecureIgnoreHostKey } res)
      ∧ (msg.Port = 0 → addr = msg.Host ++ ":22")
      ∧ (msg.Port ≠ 0 → addr = msg.Host ++ ":" ++ toString msg.Port) := by
  rw [iteration_decoded st env bytes msg hread hdec, dispatch_connect st msg env htype]
  have h22 : toString (22 : Int) = "22" := by decide
  refine ⟨msg.Host ++ ":" ++ toString (if msg.Port = 0 then (22 : Int) else msg.Port),
    env.dial.toOption, ?_, ?_, ?_, ?_⟩
  · cases hdial : env.dial <;> cases hsess : env.newSession <;> cases hshell : env.shell <;>
      cases hpty : env.requestPty <;>
      simp [handleConnect, hdial, hsess, hshell, hpty, sendWSMessage, Event.isDial,
        Except.toOption, Second]
  · cases hdial : env.dial <;> cases hsess : env.newSession <;> cases hshell : env.shell <;>
      cases hpty : env.requestPty <;>
      simp [handleConnect, hdial, hsess, hshell, hpty, sendWSMessage, Except.toOption, Second]
  · intro h0
    simp [h0, h22, String.append_assoc]
  · intro h0
    simp [h0]

/-- Witness of C7: the connect message of the spec scenario (port 0) dials `10.0.0.5:22`,
and the same message with port 2222 dials `10.0.0.5:2222`. -/
theorem connect_dials_host_port_witness :
    (∃ addr res,
      (iteration State.init (envOk connectMsg 1)).events.filter Event.isDial =
        [Event.dial "tcp" addr
          { User := connectMsg.Username, Auth := [AuthMethod.Password connectMsg.Password],
            Timeout := 10 * 1000000000,
            HostKeyCallback := HostKeyCallback.InsecureIgnoreHostKey } res]
      ∧ (iteration State.init (envOk connectMsg 1)).events.head? =
        some (Event.dial "tcp" addr
          { User := connectMsg.Username, Auth := [AuthMethod.Password connectMsg.Password],
            Timeout := 10 * 1000000000,
            HostKeyCallback := HostKeyCallback.InsecureIgnoreHostKey } res)
      ∧ (connectMsg.Port = 0 → addr = connectMsg.Host ++ ":22")
      ∧ (connectMsg.Port ≠ 0 → addr = connectMsg.Host ++ ":" ++ toString connectMsg.Port))
    ∧ (iteration State.init (envOk connectMsg 1)).events.head? =
      some (Event.dial "tcp" "10.0.0.5:22"
        { User := "root", Auth := [AuthMethod.Password "x"], Timeout := 10000000000,
          HostKeyCallback := HostKeyCallback.InsecureIgnoreHostKey } (some ⟨1⟩))
    ∧ (iteration State.init (envOk connectMsg2222 1)).events.head? =
      some (Event.dial "tcp" "10.0.0.5:2222"
        { User := "root", Auth := [AuthMethod.Password "x"], Timeout := 10000000000,
          HostKeyCallback := HostKeyCallback.InsecureIgnoreHostKey } (some ⟨1⟩)) :=
  ⟨connect_dials_host_port State.init (envOk connectMsg 1) [] connectMsg rfl rfl rfl,
   by decide, by decide⟩

/-- C8: for every state at loop exit and whatever the close calls return, the teardown
closes `stdin`, then `session`, then `client`, each one once if it is non-nil and not at
all if it is nil. -/
theorem teardown_closes_in_order (st : State) (ce : CloseEnv) :
    teardown st ce =
      st.stdin.toList.map Event.stdinClose
        ++ st.session.toList.map Event.sessionClose
        ++ st.client.toList.map Event.clientClose := by
  obtain ⟨c, s, w⟩ := st
  cases c <;> cases s <;> cases w <;> simp [teardown]

/-- With every channel write returning: a pass through the loop body leaves the loop
exactly when `ws.ReadMessage` fails; after every frame that was read, whatever the
decode and the remote-shell calls
return, the next pass starts; and a run of the loop has exited exactly when one of its
reads failed. -/
theorem loop_exits_iff_read_fails :
    (∀ (st : State) (env : Env),
      (iteration st env).control = Control.brk ↔ ∃ e, env.readMessage = .error e)
    ∧ (∀ (st : State) (env : Env) (bytes : List UInt8),
      env.readMessage = .ok bytes → (iteration st env).control = Control.next)
    ∧ (∀ (envs : List Env) (st : State),
      (loop st envs).exited = true ↔ ∃ env ∈ envs, ∃ e, env.readMessage = .error e) := by
  refine ⟨iteration_control, ?_, ?_⟩
  · intro st env bytes hread
    cases hdec : env.unmarshal <;> simp [iteration, hread, hdec]
  · intro envs
    induction envs with
    | nil => intro st; simp [loop]
    | cons env rest ih =>
      intro st
      cases hctl : (iteration st env).control with
      | brk =>
        have h := (iteration_control st env).1 hctl
        simp only [loop, hctl, true_iff]
        exact ⟨env, by simp, h⟩
      | next =>
        have h : ¬ ∃ e, env.readMessage = .error e := by
          intro h
          have := (iteration_control st env).2 h
          rw [hctl] at this
          exact Control.noConfusion this
        simp only [loop, hctl, ih (iteration st env).state, List.mem_cons]
        constructor
        · rintro ⟨e, he, hx⟩
          exact ⟨e, Or.inr he, hx⟩
        · rintro ⟨e, he | he, hx⟩
          · exact absurd (he ▸ hx) h
          · exact ⟨e, he, hx⟩

/-- C5 as stated fails: after a `connect` whose shell start failed (no CONNECT_OK was
written, one ERROR was), a `resize` issues a window-change request and a `data` issues a
stdin write. -/
theorem resize_data_before_connect_ok_reach_shell :
    countCode ConSuccessResponseCode (loop State.init [envShellFails]).events = 0
    ∧ countCode ErrorResponseCode (loop State.init [envShellFails]).events = 1
    ∧ (iteration (loop State.init [envShellFails]).state (envOk resizeMsg 0)).events
        = [Event.windowChange ⟨1⟩ 50 150]
    ∧ (iteration (loop State.init [envShellFails]).state (envOk dataMsg 0)).events
        = [Event.stdinWrite ⟨1⟩ [108, 115, 10]] := by
  decide

/-- C5 amended: a `resize` or `data` message handled before any `connect` has obtained a
session (no earlier iteration had both the dial and the session creation succeed) issues
no window-change request and no stdin write. -/
theorem resize_data_noop_before_session (pre : List Env) (env : Env) (bytes : List UInt8)
    (msg : WSMessage)
    (hpre : ∀ e ∈ pre, e.createsSession = false)
    (hread : env.readMessage = .ok bytes) (hdec : env.unmarshal = .ok msg)
    (htype : msg.Typ = ResizeMessageTypeCode ∨ msg.Typ = DataMessageTypeCode) :
    ∀ ev ∈ (iteration (loop State.init pre).state env).events,
      ev.isWindowChangeOrWrite = false := by
  have h := loop_keeps_no_session pre State.init rfl rfl hpre
  rw [iteration_decoded _ env bytes msg hread hdec]
  rcases htype with ht | ht
  · rw [dispatch_resize _ msg env ht]
    simp [handleResize, h.1]
  · rw [dispatch_data _ msg env ht]
    simp [handleData, h.2]

/-- Witness of C5 amended: a `resize` after a `connect` whose dial failed. -/
theorem resize_data_noop_before_session_witness :
    (∀ e ∈ [envDialFails], Env.createsSession e = false)
    ∧ ∀ ev ∈ (iteration (loop State.init [envDialFails]).state (envOk resizeMsg 0)).events,
        ev.isWindowChangeOrWrite = false :=
  ⟨by simp [Env.createsSession, envDialFails, envOk],
   resize_data_noop_before_session [envDialFails]
    (envOk resizeMsg 0) [] resizeMsg (by simp [Env.createsSession, envDialFails, envOk]) rfl rfl
    (Or.inl rfl)⟩

/-- C9 fails on the code: after two successful `connect` messages two connections are
live at once, and after the read failure and the teardown the first one is still live
(only the second was closed); likewise when the second dial fails, `client` is nil at the
teardown and the first connection is never closed. -/
theorem second_connect_leaks_first_client :
    liveClients [] (loop State.init [envOk connectMsg 1, envOk connectMsg 2]).events
        = [⟨1⟩, ⟨2⟩]
    ∧ (SSHHandle none [envOk connectMsg 1, envOk connectMsg 2, envClosed]
        ⟨none, none, none⟩).2 = true
    ∧ liveClients [] (SSHHandle none [envOk connectMsg 1, envOk connectMsg 2, envClosed]
        ⟨none, none, none⟩).1 = [⟨1⟩]
    ∧ (SSHHandle none [envOk connectMsg 1, envDialFails, envClosed] ⟨none, none, none⟩).2 = true
    ∧ liveClients [] (SSHHandle none [envOk connectMsg 1, envDialFails, envClosed]
        ⟨none, none, none⟩).1 = [⟨1⟩] := by
  decide

/-- C1 fails on the code: in a `connect` pass whose dial, session creation and shell start
all succeed, the forwarders are started (lines 148-161) before line 169 writes CONNECT_OK
on the connection they write to; when that write collides with a forwarder the call
panics before its frame is written: the pass made every call up to `session.Shell()`,
wrote no response with code 1 (and none with code 2) and the handler ended.  On the same
input with the write returning, one response with code 1 is written. -/
theorem connect_ok_lost_on_concurrent_write :
    (pass false State.init (envOk connectMsg 1) WriteOutcome.panicBefore).ending
        = PassEnd.panicked
    ∧ (pass false State.init (envOk connectMsg 1) WriteOutcome.panicBefore).events =
        [Event.dial "tcp" "10.0.0.5:22"
          { User := "root", Auth := [AuthMethod.Password "x"], Timeout := 10000000000,
            HostKeyCallback := HostKeyCallback.InsecureIgnoreHostKey } (some ⟨1⟩),
         Event.newSession ⟨1⟩ (some ⟨1⟩),
         Event.requestPty ⟨1⟩ "xterm-256color" 40 120 modes,
         Event.stdinPipe ⟨1⟩, Event.stdoutPipe ⟨1⟩, Event.stderrPipe ⟨1⟩,
         Event.goCopy ⟨2⟩, Event.goCopy ⟨3⟩,
         Event.shell ⟨1⟩]
    ∧ countCode ConSuccessResponseCode
        (pass false State.init (envOk connectMsg 1) WriteOutcome.panicBefore).events = 0
    ∧ countCode ErrorResponseCode
        (pass false State.init (envOk connectMsg 1) WriteOutcome.panicBefore).events = 0
    ∧ countCode ConSuccessResponseCode
        (pass false State.init (envOk connectMsg 1) WriteOutcome.returned).events = 1 := by
  decide

/-- C3 fails on the code: after a successful `connect` (forwarders running), a frame that
fails to decode whose ERROR write (line 101) collides with a forwarder: the call panics
before its frame is written, so no response with code 2 is written for that frame, the
run ends there and the following `data` frame is never handled. -/
theorem malformed_frame_error_lost_on_concurrent_write :
    (run false State.init
        [(envOk connectMsg 1, WriteOutcome.returned),
         (envMalformed, WriteOutcome.panicBefore),
         (envOk dataMsg 0, WriteOutcome.returned)]).ending = RunEnd.panicked
    ∧ (run false State.init
        [(envOk connectMsg 1, WriteOutcome.returned),
         (envMalformed, WriteOutcome.panicBefore),
         (envOk dataMsg 0, WriteOutcome.returned)]).events
      = (iteration State.init (envOk connectMsg 1)).events
    ∧ countCode ErrorResponseCode (run false State.init
        [(envOk connectMsg 1, WriteOutcome.returned),
         (envMalformed, WriteOutcome.panicBefore),
         (envOk dataMsg 0, WriteOutcome.returned)]).events = 0
    ∧ (run false State.init
        [(envOk connectMsg 1, WriteOutcome.returned),
         (envMalformed, WriteOutcome.panicBefore),
         (envOk dataMsg 0, WriteOutcome.returned)]).events.any Event.isStdinWrite = false := by
  decide

/-- C10 fails on the code: every read of this run returns a frame (a successful `connect`,
then a `resize` whose window-change request fails), and the run still ends: the ERROR
write of line 175 collides with a forwarder and panics after its frame is written, so
the loop does not go on to the next read and the following `data` frame is never
handled. -/
theorem loop_ends_without_read_failure :
    (∀ p ∈ [(envOk connectMsg 1, WriteOutcome.returned),
            (envResizeFails, WriteOutcome.panicAfter),
            (envOk dataMsg 0, WriteOutcome.returned)], Env.readOk p.1 = true)
    ∧ (run false State.init
        [(envOk connectMsg 1, WriteOutcome.returned),
         (envResizeFails, WriteOutcome.panicAfter),
         (envOk dataMsg 0, WriteOutcome.returned)]).ending = RunEnd.panicked
    ∧ (run false State.init
        [(envOk connectMsg 1, WriteOutcome.returned),
         (envResizeFails, WriteOutcome.panicAfter),
         (envOk dataMsg 0, WriteOutcome.returned)]).events
      = (iteration State.init (envOk connectMsg 1)).events
        ++ [Event.windowChange ⟨1⟩ 50 150,
            Event.wsWrite ⟨ErrorResponseCode, "Resize 失败: EOF\r\n"⟩] := by
  refine ⟨?_, ?_, ?_⟩
  · intro p hp
    simp only [List.mem_cons, List.mem_singleton, List.not_mem_nil, or_false] at hp
    rcases hp with rfl | rfl | rfl <;> rfl
  · decide
  · decide

end WebSSH
